import Mathlib

/-!
Shallow embedding of `src/lib/neural-chunk.js` (class `NeuralChunk`).

Conventions of the embedding:
* `Vector3Int` is the external coordinate value type (three integers,
  componentwise structural equality), used for both world positions and
  chunk-space positions.
* `Neuron` is the external unit type: it owns a world-space position
  (`getPositionAsVector3Int` in the source) and a string payload `data`;
  the source's emptiness predicate is `data === ""`.
* JavaScript mutation of `this` is modelled by explicit state passing:
  a method that mutates the chunk takes the chunk and returns the updated
  chunk.  `addNeuron` can throw, and in JS the mutations performed before
  the `throw` survive; it is therefore embedded as returning the
  post-call state *together with* an optional error, rather than as an
  `Except` that would discard the already-mutated state.
* The nested object map `this.neurons[x][y][z]` is embedded as an
  association list keyed by the full coordinate.  This is observationally
  equivalent to the source: `addNeuron` creates the inner levels
  `neurons[x]` and `neurons[x][y]` immediately before populating them, so
  an empty inner object is never observable, and on the collision path
  both levels already existed.
* JavaScript numbers are embedded as exact rationals (`ℚ`) where the
  source performs division or `Math.floor`; integer-valued inputs keep
  type `Int`.
-/

namespace NeuralChunkJs

/-- The coordinate value type from `src/lib/vector3Int` (external
collaborator): three integers with componentwise equality. -/
structure Vector3Int where
  x : Int
  y : Int
  z : Int
deriving DecidableEq, Repr

/-- The unit ("neuron") value type (external collaborator): a fixed
world-space position and a string payload whose emptiness predicate is
`data === ""`. -/
structure Neuron where
  position : Vector3Int
  data : String
deriving DecidableEq, Repr

instance : Inhabited Neuron := ⟨⟨⟨0, 0, 0⟩, ""⟩⟩

/-- `neuron.getPositionAsVector3Int()` from the source. -/
def Neuron.getPositionAsVector3Int (n : Neuron) : Vector3Int := n.position

/-- The error thrown by `addNeuron` (the source throws a string
"Neuron collision! ... a neuron exists at (x, y, z)"; we retain the
position it reports). -/
inductive ChunkError where
  | collision (pos : Vector3Int)
deriving DecidableEq, Repr

/-- State of a `NeuralChunk` instance: the position index `neurons`
(nested object map in the source, flattened to an association list keyed
by the full coordinate), the linear insertion-order list `rawNeurons`,
and the chunk's own chunk-space coordinate `(x, y, z)`. -/
structure NeuralChunk where
  neurons : List (Vector3Int × Neuron)
  rawNeurons : List Neuron
  x : Int
  y : Int
  z : Int
deriving DecidableEq, Repr

/-- `new NeuralChunk(x, y, z)`: both containers start empty. -/
def NeuralChunk.mkChunk (x y z : Int) : NeuralChunk :=
  { neurons := [], rawNeurons := [], x := x, y := y, z := z }

/-- Lookup in the position index: the flattened form of the source's
`x in this.neurons && y in this.neurons[x] && z in this.neurons[x][y]`
followed by reading `this.neurons[x][y][z]`. -/
def NeuralChunk.indexFind (c : NeuralChunk) (pos : Vector3Int) : Option Neuron :=
  (c.neurons.find? (fun e => e.1 == pos)).map Prod.snd

/-- `addNeuron(neuron)` from the source, lines 29-52.  Faithful to the
statement order of the JS body: the neuron is pushed onto `rawNeurons`
*before* the collision check, so on a collision the returned state keeps
the pushed neuron in `rawNeurons` while the index is unchanged. -/
def NeuralChunk.addNeuron (c : NeuralChunk) (neuron : Neuron) : NeuralChunk × Option ChunkError :=
  let neuronPosition := neuron.getPositionAsVector3Int
  -- this.rawNeurons.push(neuron);
  let c := { c with rawNeurons := c.rawNeurons ++ [neuron] }
  -- Does a neuron already exist at this point?
  if (c.indexFind neuronPosition).isSome then
    (c, some (ChunkError.collision neuronPosition))
  else
    ({ c with neurons := c.neurons ++ [(neuronPosition, neuron)] }, none)

/-- `getNeuronFromPosition(position)` from the source, lines 60-70:
returns the neuron at the position, `undefined` (here `none`) when
absent.  Pure: takes the chunk, returns only the lookup result. -/
def NeuralChunk.getNeuronFromPosition (c : NeuralChunk) (position : Vector3Int) : Option Neuron :=
  c.indexFind position

/-- JavaScript `ToNumber` of the `rawNeurons` array, as used by the
source's loop guard `i < this.rawNeurons` (line 78).  An empty array
converts to `0`; a non-empty array of objects stringifies to
"[object Object]..." which converts to NaN (`none`). -/
def rawNeuronsToNumber (arr : List Neuron) : Option ℚ :=
  match arr with
  | [] => some 0
  | _ => none

/-- JavaScript `<` between a number and the array-converted value:
any comparison against NaN is false. -/
def jsLtArray (i : Nat) (v : Option ℚ) : Bool :=
  match v with
  | some q => decide ((i : ℚ) < q)
  | none => false

/-- The loop of `hasEmptyNeurons` (source lines 78-82), with the
source's guard `i < this.rawNeurons` (the array itself, not its
length).  Fuel makes the recursion structural; `hasEmptyNeurons`
supplies one more unit of fuel than the sequence length. -/
def NeuralChunk.hasEmptyNeuronsLoop (c : NeuralChunk) : Nat → Nat → Bool
  | 0, _ => false
  | fuel + 1, i =>
    if jsLtArray i (rawNeuronsToNumber c.rawNeurons) then
      if (c.rawNeurons.getD i default).data = "" then true
      else c.hasEmptyNeuronsLoop fuel (i + 1)
    else false

/-- `hasEmptyNeurons()` from the source, lines 77-85. -/
def NeuralChunk.hasEmptyNeurons (c : NeuralChunk) : Bool :=
  c.hasEmptyNeuronsLoop (c.rawNeurons.length + 1) 0

/-- `getAdjacentChunkPositions()` from the source, lines 94-138,
transcribed push by push.  Note the source passes `this.x + 1`,
`this.x - 1` or `this.x` as the *y* component of every pushed
`Vector3Int` (a transcription defect flagged in the spec). -/
def NeuralChunk.getAdjacentChunkPositions (c : NeuralChunk) : List Vector3Int :=
  [ -- All corners (8 chunks)
    ⟨c.x + 1, c.x + 1, c.z + 1⟩,
    ⟨c.x + 1, c.x + 1, c.z - 1⟩,
    ⟨c.x - 1, c.x + 1, c.z + 1⟩,
    ⟨c.x - 1, c.x + 1, c.z - 1⟩,
    ⟨c.x + 1, c.x - 1, c.z + 1⟩,
    ⟨c.x + 1, c.x - 1, c.z - 1⟩,
    ⟨c.x - 1, c.x - 1, c.z + 1⟩,
    ⟨c.x - 1, c.x - 1, c.z - 1⟩,
    -- All directly adjacent cross faces (6 chunks)
    ⟨c.x, c.x + 1, c.z⟩,
    ⟨c.x, c.x - 1, c.z⟩,
    ⟨c.x + 1, c.x, c.z⟩,
    ⟨c.x - 1, c.x, c.z⟩,
    ⟨c.x, c.x, c.z + 1⟩,
    ⟨c.x, c.x, c.z - 1⟩,
    -- All edge-meeting chunks (8 chunks)
    ⟨c.x + 1, c.x + 1, c.z⟩,
    ⟨c.x + 1, c.x - 1, c.z⟩,
    ⟨c.x - 1, c.x + 1, c.z⟩,
    ⟨c.x - 1, c.x - 1, c.z⟩,
    ⟨c.x, c.x + 1, c.z + 1⟩,
    ⟨c.x, c.x - 1, c.z + 1⟩,
    ⟨c.x, c.x + 1, c.z - 1⟩,
    ⟨c.x, c.x - 1, c.z - 1⟩,
    -- All vertically middle corner chunks (4 chunks)
    ⟨c.x + 1, c.x, c.z + 1⟩,
    ⟨c.x + 1, c.x, c.z - 1⟩,
    ⟨c.x - 1, c.x, c.z + 1⟩,
    ⟨c.x - 1, c.x, c.z - 1⟩ ]

/-- `isEqual(otherChunk)` from the source, lines 146-148. -/
def NeuralChunk.isEqual (c otherChunk : NeuralChunk) : Bool :=
  otherChunk.x == c.x && otherChunk.y == c.y && otherChunk.z == c.z

/-- `getChunkPositionFromWorldPosition(v3, chunkSize, worldSize)` from
the source, lines 158-164: each axis is `Math.floor((axis + worldSize) /
chunkSize)`, with the division taken over exact rationals. -/
def NeuralChunk.getChunkPositionFromWorldPosition (v3 : Vector3Int) (chunkSize worldSize : Int) :
    Vector3Int :=
  ⟨⌊((v3.x + worldSize : Int) : ℚ) / (chunkSize : ℚ)⌋,
   ⌊((v3.y + worldSize : Int) : ℚ) / (chunkSize : ℚ)⌋,
   ⌊((v3.z + worldSize : Int) : ℚ) / (chunkSize : ℚ)⌋⟩

/-- `getChunkPositionsFromPointEdgeCases(point, worldSize, chunkSize,
edgeDistanceThreshold)` from the source, lines 175-309, transcribed
branch by branch in source order.  The source computes
`floatingChunkCoordinateOf{X,Y,Z} = (axis + worldSize) / chunkSize` but
never uses those values; the per-axis decimal that actually feeds every
boundary test is `pos - Math.floor(pos)` of the *offset position itself*
(lines 189, 194, 198), not of the position divided by the chunk size. -/
def NeuralChunk.getChunkPositionsFromPointEdgeCases (point : Vector3Int)
    (worldSize chunkSize : Int) (edgeDistanceThreshold : ℚ) : List Vector3Int :=
  let thisChunkPosition := NeuralChunk.getChunkPositionFromWorldPosition point chunkSize worldSize
  let worldSizeOffset := worldSize
  let xPositionInChunkWorldCoordinates : ℚ := ((point.x + worldSizeOffset : Int) : ℚ)
  let xCoordinateChunkDecimal : ℚ :=
    xPositionInChunkWorldCoordinates - ⌊xPositionInChunkWorldCoordinates⌋
  let yPositionInChunkWorldCoordinates : ℚ := ((point.y + worldSizeOffset : Int) : ℚ)
  let yCoordinateChunkDecimal : ℚ :=
    yPositionInChunkWorldCoordinates - ⌊yPositionInChunkWorldCoordinates⌋
  let zPositionInChunkWorldCoordinates : ℚ := ((point.z + worldSizeOffset : Int) : ℚ)
  let zCoordinateChunkDecimal : ℚ :=
    zPositionInChunkWorldCoordinates - ⌊zPositionInChunkWorldCoordinates⌋
  let isXNearLeftBoundary : Bool := decide (xCoordinateChunkDecimal < edgeDistanceThreshold)
  let isXNearRightBoundary : Bool := decide ((1 - xCoordinateChunkDecimal) < edgeDistanceThreshold)
  let isYNearBottomBoundary : Bool := decide (yCoordinateChunkDecimal < edgeDistanceThreshold)
  let isYNearTopBoundary : Bool := decide ((1 - yCoordinateChunkDecimal) < edgeDistanceThreshold)
  let isZNearBackBoundary : Bool := decide (zCoordinateChunkDecimal < edgeDistanceThreshold)
  let isZNearFrontBoundary : Bool := decide ((1 - zCoordinateChunkDecimal) < edgeDistanceThreshold)
  -- Gather left or right chunk if necessary
  (if isXNearLeftBoundary then
      ⟨thisChunkPosition.x - 1, thisChunkPosition.y, thisChunkPosition.z⟩ ::
        (if isYNearTopBoundary then
          [⟨thisChunkPosition.x - 1, thisChunkPosition.y + 1, thisChunkPosition.z⟩]
         else if isYNearBottomBoundary then
          [⟨thisChunkPosition.x - 1, thisChunkPosition.y - 1, thisChunkPosition.z⟩]
         else [])
    else if isXNearRightBoundary then
      ⟨thisChunkPosition.x + 1, thisChunkPosition.y, thisChunkPosition.z⟩ ::
        (if isYNearTopBoundary then
          [⟨thisChunkPosition.x + 1, thisChunkPosition.y + 1, thisChunkPosition.z⟩]
         else if isYNearBottomBoundary then
          [⟨thisChunkPosition.x + 1, thisChunkPosition.y - 1, thisChunkPosition.z⟩]
         else [])
    else []) ++
  -- Gather top or bottom chunk if necessary
  (if isYNearBottomBoundary then
      [⟨thisChunkPosition.x, thisChunkPosition.y - 1, thisChunkPosition.z⟩]
    else if isYNearTopBoundary then
      [⟨thisChunkPosition.x, thisChunkPosition.y + 1, thisChunkPosition.z⟩]
    else []) ++
  -- Gather front or back chunk if necessary
  (if isZNearBackBoundary then
      ⟨thisChunkPosition.x, thisChunkPosition.y, thisChunkPosition.z - 1⟩ ::
        (if isYNearTopBoundary then
          [⟨thisChunkPosition.x, thisChunkPosition.y + 1, thisChunkPosition.z - 1⟩]
         else if isYNearBottomBoundary then
          [⟨thisChunkPosition.x, thisChunkPosition.y - 1, thisChunkPosition.z - 1⟩]
         else [])
    else if isZNearFrontBoundary then
      ⟨thisChunkPosition.x, thisChunkPosition.y, thisChunkPosition.z + 1⟩ ::
        (if isYNearTopBoundary then
          [⟨thisChunkPosition.x, thisChunkPosition.y + 1, thisChunkPosition.z + 1⟩]
         else if isYNearBottomBoundary then
          [⟨thisChunkPosition.x, thisChunkPosition.y - 1, thisChunkPosition.z + 1⟩]
         else [])
    else []) ++
  -- If near both RIGHT and FRONT, then get the RIGHT-FRONT corner
  (if isXNearRightBoundary && isZNearFrontBoundary then
      ⟨thisChunkPosition.x + 1, thisChunkPosition.y, thisChunkPosition.z + 1⟩ ::
        (if isYNearTopBoundary then
          [⟨thisChunkPosition.x + 1, thisChunkPosition.y + 1, thisChunkPosition.z + 1⟩]
         else if isYNearBottomBoundary then
          [⟨thisChunkPosition.x + 1, thisChunkPosition.y - 1, thisChunkPosition.z + 1⟩]
         else [])
    else []) ++
  -- If near both LEFT and FRONT, then get the LEFT-FRONT corner
  (if isXNearLeftBoundary && isZNearFrontBoundary then
      ⟨thisChunkPosition.x - 1, thisChunkPosition.y, thisChunkPosition.z + 1⟩ ::
        (if isYNearTopBoundary then
          [⟨thisChunkPosition.x - 1, thisChunkPosition.y + 1, thisChunkPosition.z + 1⟩]
         else if isYNearBottomBoundary then
          [⟨thisChunkPosition.x - 1, thisChunkPosition.y - 1, thisChunkPosition.z + 1⟩]
         else [])
    else []) ++
  -- If near both RIGHT and BACK, then get the RIGHT-BACK corner
  (if isXNearRightBoundary && isZNearBackBoundary then
      ⟨thisChunkPosition.x + 1, thisChunkPosition.y, thisChunkPosition.z - 1⟩ ::
        (if isYNearTopBoundary then
          [⟨thisChunkPosition.x + 1, thisChunkPosition.y + 1, thisChunkPosition.z - 1⟩]
         else if isYNearBottomBoundary then
          [⟨thisChunkPosition.x + 1, thisChunkPosition.y - 1, thisChunkPosition.z - 1⟩]
         else [])
    else []) ++
  -- If near both LEFT and BACK, then get the LEFT-BACK corner
  (if isXNearLeftBoundary && isZNearBackBoundary then
      ⟨thisChunkPosition.x - 1, thisChunkPosition.y, thisChunkPosition.z - 1⟩ ::
        (if isYNearTopBoundary then
          [⟨thisChunkPosition.x - 1, thisChunkPosition.y + 1, thisChunkPosition.z - 1⟩]
         else if isYNearBottomBoundary then
          [⟨thisChunkPosition.x - 1, thisChunkPosition.y - 1, thisChunkPosition.z - 1⟩]
         else [])
    else [])

/-- `toJSON()` from the source, lines 311-315: serializes only the
linear list of contained neurons. -/
def NeuralChunk.toJSON (c : NeuralChunk) : List Neuron :=
  c.rawNeurons

/-- Folding a sequence of `addNeuron` calls over a chunk, keeping the
post-call state of every call (successful or not), as a JS caller that
catches and ignores collisions would. -/
def addAll (c : NeuralChunk) (ns : List Neuron) : NeuralChunk :=
  ns.foldl (fun acc n => (acc.addNeuron n).1) c

end NeuralChunkJs

namespace NeuralChunkJs

/-! ### Helper lemmas -/

/-- A failed `addNeuron` call (collision) reports the collision and leaves
the position index unchanged, while the linear list has already grown. -/
theorem addNeuron_collision_state (c : NeuralChunk) (n : Neuron)
    (h : (c.indexFind n.position).isSome) :
    (c.addNeuron n).1.neurons = c.neurons ∧
    (c.addNeuron n).1.rawNeurons = c.rawNeurons ++ [n] ∧
    (c.addNeuron n).2 = some (ChunkError.collision n.position) := by
  simp only [NeuralChunk.addNeuron, Neuron.getPositionAsVector3Int]
  have h' : (NeuralChunk.indexFind { c with rawNeurons := c.rawNeurons ++ [n] }
      n.position).isSome := h
  simp [h']

/-- A successful `addNeuron` call appends to both containers. -/
theorem addNeuron_success_state (c : NeuralChunk) (n : Neuron)
    (h : c.indexFind n.position = none) :
    (c.addNeuron n).1.neurons = c.neurons ++ [(n.position, n)] ∧
    (c.addNeuron n).1.rawNeurons = c.rawNeurons ++ [n] ∧
    (c.addNeuron n).2 = none := by
  simp only [NeuralChunk.addNeuron, Neuron.getPositionAsVector3Int]
  have h' : NeuralChunk.indexFind { c with rawNeurons := c.rawNeurons ++ [n] }
      n.position = none := h
  simp [h']

/-- Index lookup after one `addNeuron` call, in terms of the lookup before. -/
theorem getNeuron_addNeuron (c : NeuralChunk) (n : Neuron) (p : Vector3Int) :
    ((c.addNeuron n).1).getNeuronFromPosition p =
      (c.getNeuronFromPosition p).or
        (if c.getNeuronFromPosition n.position = none ∧ n.position = p then some n
         else none) := by
  by_cases h : c.indexFind n.position = none
  · obtain ⟨hn, -, -⟩ := addNeuron_success_state c n h
    have hcond : (c.getNeuronFromPosition n.position = none) := h
    simp only [NeuralChunk.getNeuronFromPosition, NeuralChunk.indexFind, hn,
      List.find?_append, hcond, true_and]
    cases hf : c.neurons.find? (fun e => e.1 == p) with
    | some e => simp [hf, Option.or]
    | none =>
      by_cases hp : n.position = p
      · simp [hf, hp, Option.or, List.find?]
      · have hb : (n.position == p) = false := by simp [hp]
        simp [hf, hp, hb, Option.or, List.find?]
  · have h' : (c.indexFind n.position).isSome := Option.isSome_iff_ne_none.mpr h
    obtain ⟨hn, -, -⟩ := addNeuron_collision_state c n h'
    simp only [NeuralChunk.getNeuronFromPosition, NeuralChunk.indexFind, hn]
    rw [if_neg (fun hc => h hc.1)]
    cases hf : c.neurons.find? (fun e => e.1 == p) <;> simp [hf, Option.or]

/-- Lookup after any sequence of `addNeuron` calls over an initial chunk:
an entry already present in the initial chunk wins over the whole
sequence, and within the sequence the first entry at the queried
position wins, because every later entry at the same position collides
and does not replace it. -/
theorem getNeuron_addAll (c : NeuralChunk) (ns : List Neuron) (p : Vector3Int) :
    (addAll c ns).getNeuronFromPosition p =
      (c.getNeuronFromPosition p).or (ns.find? (fun n => n.position == p)) := by
  induction ns generalizing c with
  | nil => cases h : c.getNeuronFromPosition p <;> simp [addAll, h, Option.or]
  | cons n ns ih =>
    have step : addAll c (n :: ns) = addAll ((c.addNeuron n).1) ns := rfl
    rw [step, ih, getNeuron_addNeuron]
    by_cases hp : n.position = p
    · subst hp
      cases h : c.getNeuronFromPosition n.position with
      | some u => simp [h, List.find?, Option.or]
      | none => simp [h, List.find?, Option.or]
    · have hif : (if c.getNeuronFromPosition n.position = none ∧ n.position = p
          then some n else none) = none := by simp [hp]
      have hb : (n.position == p) = false := by simp [hp]
      have hfind : (n :: ns).find? (fun m => m.position == p) =
          ns.find? (fun m => m.position == p) := by
        simp [List.find?, hb]
      rw [hif, hfind]
      cases h : c.getNeuronFromPosition p <;> simp [Option.or]

/-! ### Claim theorems -/

/-- Demonstration state shared by the collision claims: a fresh chunk at
(0,0,0) after a successful insert of a neuron at the origin followed by an
attempted insert of a second, different neuron at the same position. -/
def demoCollision : NeuralChunk × Option ChunkError :=
  (((NeuralChunk.mkChunk 0 0 0).addNeuron ⟨⟨0, 0, 0⟩, "a"⟩).1).addNeuron ⟨⟨0, 0, 0⟩, "b"⟩

/-- C1: at the spec scenario (chunkSize 16, worldOffset 0, point (15,15,15),
edgeThreshold 0.2) the code does not classify the axes by the fractional
position within the chunk cell.  It computes the fractional part of the
offset world position itself (line 189 of the source), which is 0 for every
integer point, so every axis is flagged near the LOW boundary and the
returned set is the seven negative-direction neighbors; the corner (1,1,1)
demanded by the claim is absent. -/
theorem c1_edge_scenario_flags_low_not_high :
    NeuralChunk.getChunkPositionsFromPointEdgeCases ⟨15, 15, 15⟩ 0 16 (1 / 5) =
      [⟨-1, 0, 0⟩, ⟨-1, -1, 0⟩, ⟨0, -1, 0⟩, ⟨0, 0, -1⟩, ⟨0, -1, -1⟩, ⟨-1, 0, -1⟩,
        ⟨-1, -1, -1⟩] ∧
    (⟨1, 1, 1⟩ : Vector3Int) ∉
      NeuralChunk.getChunkPositionsFromPointEdgeCases ⟨15, 15, 15⟩ 0 16 (1 / 5) := by
  have h : NeuralChunk.getChunkPositionsFromPointEdgeCases ⟨15, 15, 15⟩ 0 16 (1 / 5) =
      [⟨-1, 0, 0⟩, ⟨-1, -1, 0⟩, ⟨0, -1, 0⟩, ⟨0, 0, -1⟩, ⟨0, -1, -1⟩, ⟨-1, 0, -1⟩,
        ⟨-1, -1, -1⟩] := by
    norm_num [NeuralChunk.getChunkPositionsFromPointEdgeCases,
      NeuralChunk.getChunkPositionFromWorldPosition]
  refine ⟨h, ?_⟩
  rw [h]
  decide

/-- C2: the neighbor enumeration of chunk (0,1,0) has 26 entries but they
are not the 26-cell neighborhood: the source builds every y component from
`this.x`, so the list contains the chunk's own coordinate (0,1,0) (the
entry `(this.x, this.x + 1, this.z)`) and misses the true corner neighbor
(1,2,1). -/
theorem c2_adjacent_positions_built_from_x :
    ((NeuralChunk.mkChunk 0 1 0).getAdjacentChunkPositions).length = 26 ∧
    (⟨0, 1, 0⟩ : Vector3Int) ∈ (NeuralChunk.mkChunk 0 1 0).getAdjacentChunkPositions ∧
    (⟨1, 2, 1⟩ : Vector3Int) ∉ (NeuralChunk.mkChunk 0 1 0).getAdjacentChunkPositions := by
  decide

/-- C3: inserting a second neuron at an occupied position fails with the
collision error and the index still returns the first neuron, but the chunk
is NOT left unmodified: the rejected neuron was already pushed onto the
linear sequence before the collision check (source line 34 precedes line
45). -/
theorem c3_collision_still_pushes_to_sequence :
    ((NeuralChunk.mkChunk 0 0 0).addNeuron ⟨⟨0, 0, 0⟩, "a"⟩).2 = none ∧
    demoCollision.2 = some (ChunkError.collision ⟨0, 0, 0⟩) ∧
    demoCollision.1.getNeuronFromPosition ⟨0, 0, 0⟩ = some ⟨⟨0, 0, 0⟩, "a"⟩ ∧
    demoCollision.1.rawNeurons = [⟨⟨0, 0, 0⟩, "a"⟩, ⟨⟨0, 0, 0⟩, "b"⟩] := by
  refine ⟨rfl, rfl, rfl, rfl⟩

/-- C4: after a failed insert the position index and the linear sequence no
longer describe the same set of units, and the linear sequence holds two
units at the same position: the invariant is violated by a reachable
state. -/
theorem c4_index_and_sequence_disagree_after_collision :
    demoCollision.1.neurons.map Prod.snd = [⟨⟨0, 0, 0⟩, "a"⟩] ∧
    demoCollision.1.rawNeurons = [⟨⟨0, 0, 0⟩, "a"⟩, ⟨⟨0, 0, 0⟩, "b"⟩] ∧
    (⟨⟨0, 0, 0⟩, "b"⟩ : Neuron) ∈ demoCollision.1.rawNeurons ∧
    (⟨⟨0, 0, 0⟩, "b"⟩ : Neuron) ∉ demoCollision.1.neurons.map Prod.snd ∧
    demoCollision.1.rawNeurons.map Neuron.position = [⟨0, 0, 0⟩, ⟨0, 0, 0⟩] := by
  refine ⟨rfl, rfl, ?_, ?_, rfl⟩ <;> decide

/-- C5: the emptiness scan compares its loop counter against the array
itself (`i < this.rawNeurons`, source line 78), a comparison that is false
for every index (NaN for a non-empty array of objects, 0 for the empty
array), so `hasEmptyNeurons` returns false for every chunk — including a
chunk that demonstrably holds a neuron with an empty payload. -/
theorem c5_hasEmptyNeurons_never_true :
    (∀ c : NeuralChunk, c.hasEmptyNeurons = false) ∧
    ((NeuralChunk.mkChunk 0 0 0).addNeuron ⟨⟨1, 2, 3⟩, ""⟩).2 = none ∧
    (((NeuralChunk.mkChunk 0 0 0).addNeuron ⟨⟨1, 2, 3⟩, ""⟩).1).rawNeurons.any
      (fun n => n.data == "") = true ∧
    (((NeuralChunk.mkChunk 0 0 0).addNeuron ⟨⟨1, 2, 3⟩, ""⟩).1).hasEmptyNeurons = false := by
  refine ⟨?_, rfl, rfl, rfl⟩
  intro c
  obtain ⟨idx, raw, x, y, z⟩ := c
  cases raw with
  | nil =>
    simp [NeuralChunk.hasEmptyNeurons, NeuralChunk.hasEmptyNeuronsLoop,
      rawNeuronsToNumber, jsLtArray]
  | cons a l =>
    simp [NeuralChunk.hasEmptyNeurons, NeuralChunk.hasEmptyNeuronsLoop,
      rawNeuronsToNumber, jsLtArray]

/-- C6: counterexample to the claim that invalid configurations fail.
Neither function validates its arguments: with `chunkSize = -1 ≤ 0`,
`getChunkPositionFromWorldPosition` returns the ordinary floor-divided
coordinate (-9, 0, 0) instead of failing, and with `edgeThreshold = 2`
(outside [0,1)) the edge-case function returns a normal 13-element list
instead of failing. -/
theorem c6_no_failure_on_invalid_configuration :
    NeuralChunk.getChunkPositionFromWorldPosition ⟨9, 0, 0⟩ (-1) 0 = ⟨-9, 0, 0⟩ ∧
    (NeuralChunk.getChunkPositionsFromPointEdgeCases ⟨0, 0, 0⟩ 0 16 2).length = 13 := by
  constructor
  · norm_num [NeuralChunk.getChunkPositionFromWorldPosition]
  · norm_num [NeuralChunk.getChunkPositionsFromPointEdgeCases,
      NeuralChunk.getChunkPositionFromWorldPosition]

/-- C6 (amended): the functions perform no validation at all.  With the
invalid `chunkSize = -1` the coordinate function still computes the floor
formula on every point (yielding the negated offsets), and with
`chunkSize = -4` and `edgeThreshold = 3/2` the edge-case function computes
and returns a normal result. -/
theorem c6_invalid_inputs_computed_not_rejected (v3 : Vector3Int) (worldSize : Int) :
    NeuralChunk.getChunkPositionFromWorldPosition v3 (-1) worldSize =
      ⟨-(v3.x + worldSize), -(v3.y + worldSize), -(v3.z + worldSize)⟩ ∧
    (NeuralChunk.getChunkPositionsFromPointEdgeCases ⟨3, 3, 3⟩ 0 (-4) (3 / 2)).length =
      13 := by
  have hfloor : ∀ m : Int, ⌊((m : ℚ)) / ((-1 : Int) : ℚ)⌋ = -m := by
    intro m
    push_cast
    rw [div_neg, div_one, ← Int.cast_neg, Int.floor_intCast]
  constructor
  · have hdef : NeuralChunk.getChunkPositionFromWorldPosition v3 (-1) worldSize =
        ⟨⌊((v3.x + worldSize : Int) : ℚ) / ((-1 : Int) : ℚ)⌋,
         ⌊((v3.y + worldSize : Int) : ℚ) / ((-1 : Int) : ℚ)⌋,
         ⌊((v3.z + worldSize : Int) : ℚ) / ((-1 : Int) : ℚ)⌋⟩ := rfl
    rw [hdef, hfloor, hfloor, hfloor]
  · norm_num [NeuralChunk.getChunkPositionsFromPointEdgeCases,
      NeuralChunk.getChunkPositionFromWorldPosition]

/-- C7: the chunk coordinate of a world position is computed per axis as
the floor of `(axis + worldOffset) / chunkSize`; with chunkSize 10 and
offset 0, x = 9 lands in chunk 0 and x = 10 in chunk 1. -/
theorem c7_chunk_coordinate_is_floor_per_axis (v3 : Vector3Int)
    (chunkSize worldSize : Int) (h : 0 < chunkSize) :
    NeuralChunk.getChunkPositionFromWorldPosition v3 chunkSize worldSize =
      ⟨⌊((v3.x + worldSize : Int) : ℚ) / (chunkSize : ℚ)⌋,
       ⌊((v3.y + worldSize : Int) : ℚ) / (chunkSize : ℚ)⌋,
       ⌊((v3.z + worldSize : Int) : ℚ) / (chunkSize : ℚ)⌋⟩ ∧
    (NeuralChunk.getChunkPositionFromWorldPosition ⟨9, 0, 0⟩ 10 0).x = 0 ∧
    (NeuralChunk.getChunkPositionFromWorldPosition ⟨10, 0, 0⟩ 10 0).x = 1 := by
  refine ⟨rfl, ?_, ?_⟩ <;> norm_num [NeuralChunk.getChunkPositionFromWorldPosition]

/-- C7 witness at chunkSize 10. -/
theorem c7_chunk_coordinate_is_floor_per_axis_witness :
    (0 : Int) < 10 ∧
    (NeuralChunk.getChunkPositionFromWorldPosition ⟨9, 0, 0⟩ 10 0).x = 0 ∧
    (NeuralChunk.getChunkPositionFromWorldPosition ⟨10, 0, 0⟩ 10 0).x = 1 :=
  ⟨by decide, (c7_chunk_coordinate_is_floor_per_axis ⟨0, 0, 0⟩ 10 0 (by decide)).2⟩

/-- C8: lookup is pure (a total function of the chunk value that returns
an Option and never mutates), returns `none` on a fresh chunk, and after
any sequence of inserts returns exactly the first — hence the only
successfully inserted — neuron of the sequence at the queried position
(later neurons at the same position collide and do not replace it). -/
theorem c8_getNeuron_is_pure_lookup (x y z : Int) (ns : List Neuron) (p : Vector3Int) :
    (NeuralChunk.mkChunk x y z).getNeuronFromPosition p = none ∧
    (addAll (NeuralChunk.mkChunk x y z) ns).getNeuronFromPosition p =
      ns.find? (fun n => n.position == p) := by
  refine ⟨rfl, ?_⟩
  rw [getNeuron_addAll]
  rfl

/-- C9: with edgeThreshold 0 no axis can be near a boundary (the per-axis
decimal is ≥ 0 and its complement is > 0), so the returned collection is
empty for every point. -/
theorem c9_threshold_zero_returns_empty (point : Vector3Int)
    (worldSize chunkSize : Int) (h : 0 < chunkSize) :
    NeuralChunk.getChunkPositionsFromPointEdgeCases point worldSize chunkSize 0 = [] := by
  norm_num [NeuralChunk.getChunkPositionsFromPointEdgeCases, Int.floor_intCast]

/-- C9 witness at a concrete point and chunkSize 16. -/
theorem c9_threshold_zero_returns_empty_witness :
    (0 : Int) < 16 ∧
    NeuralChunk.getChunkPositionsFromPointEdgeCases ⟨7, -8, 9⟩ 5 16 0 = [] :=
  ⟨by decide, c9_threshold_zero_returns_empty ⟨7, -8, 9⟩ 5 16 (by decide)⟩

/-- C10: the neighbor enumeration never reads the chunk's y coordinate:
two chunks agreeing on x and z produce identical 26-entry lists, each
entry built solely from x and z. -/
theorem c10_adjacent_positions_ignore_y (c₁ c₂ : NeuralChunk) (hx : c₁.x = c₂.x)
    (hz : c₁.z = c₂.z) :
    c₁.getAdjacentChunkPositions = c₂.getAdjacentChunkPositions ∧
    c₁.getAdjacentChunkPositions.length = 26 := by
  refine ⟨?_, ?_⟩
  · simp [NeuralChunk.getAdjacentChunkPositions, hx, hz]
  · simp [NeuralChunk.getAdjacentChunkPositions]

/-- C10 witness: chunks (0,5,0) and (0,-3,0) share the enumeration. -/
theorem c10_adjacent_positions_ignore_y_witness :
    (NeuralChunk.mkChunk 0 5 0).x = (NeuralChunk.mkChunk 0 (-3) 0).x ∧
    (NeuralChunk.mkChunk 0 5 0).z = (NeuralChunk.mkChunk 0 (-3) 0).z ∧
    ((NeuralChunk.mkChunk 0 5 0).getAdjacentChunkPositions =
        (NeuralChunk.mkChunk 0 (-3) 0).getAdjacentChunkPositions ∧
      (NeuralChunk.mkChunk 0 5 0).getAdjacentChunkPositions.length = 26) :=
  ⟨rfl, rfl, c10_adjacent_positions_ignore_y _ _ rfl rfl⟩

end NeuralChunkJs
